import Mathlib

/-!
Shallow embedding of gjs/jsapi-util-error.cpp: the exception throw engine
(gjs_throw_valist), the public throw entry points (gjs_throw,
gjs_throw_custom, gjs_throw_literal), the GError converter
(gjs_throw_g_error), the stack trace formatter (gjs_format_stack_trace),
and the warning reporter (gjs_warning_reporter).

The SpiderMonkey runtime is external to the repository; its fallible calls
(gjs_string_from_utf8, JS_GetClassObject, JS_New, gjs_object_set_property,
JS.BuildStackString, JS_EncodeStringToUTF8, g_filename_from_utf8,
gjs_error_from_gerror) are modelled as environment oracles.  The per-context
pending exception slot is explicit state; side effects (request begin and
end, compartment enter and exit, freeing buffers, log emissions, installing
the pending exception) are recorded as an event trace.
-/

/-- An argument for printf-style formatting (g_strdup_vprintf). -/
inductive FormatArg where
  | str (s : String)
  | int (n : Int)
deriving DecidableEq

/-- Character-level model of g_strdup_vprintf: interprets %s, %d and %%
directives; every other character is copied verbatim. -/
def formatChars : List Char → List FormatArg → List Char
  | [], _ => []
  | '%' :: '%' :: rest, args => '%' :: formatChars rest args
  | '%' :: 's' :: rest, FormatArg.str s :: args => s.data ++ formatChars rest args
  | '%' :: 'd' :: rest, FormatArg.int n :: args => (toString n).data ++ formatChars rest args
  | c :: rest, args => c :: formatChars rest args

/-- g_strdup_vprintf: render a format string with its arguments. -/
def g_strdup_vprintf (fmt : String) (args : List FormatArg) : String :=
  String.mk (formatChars fmt.data args)

/-- The SpiderMonkey JSProtoKey values mentioned in the source; every
other proto key is collapsed into the `other` constructor. -/
inductive JSProtoKey where
  | Error | InternalError | EvalError | RangeError | ReferenceError
  | SyntaxError | TypeError | URIError | StopIteration
  | other (n : Nat)
deriving DecidableEq

/-- The disjunction guarded by g_return_if_fail in gjs_throw_custom. -/
def validProtoKey (kind : JSProtoKey) : Bool :=
  kind == JSProtoKey.Error || kind == JSProtoKey.InternalError ||
  kind == JSProtoKey.EvalError || kind == JSProtoKey.RangeError ||
  kind == JSProtoKey.ReferenceError || kind == JSProtoKey.SyntaxError ||
  kind == JSProtoKey.TypeError || kind == JSProtoKey.URIError ||
  kind == JSProtoKey.StopIteration

/-- A GError record: domain, code, message (the NativeErrorRecord). -/
structure GError where
  domain : Nat
  code : Int
  message : String
deriving DecidableEq

/-- A JS value that can occupy the pending exception slot: either an error
object built by the throw engine (kind, message, optional name property),
or an object produced by the external gjs_error_from_gerror converter. -/
inductive JSVal where
  | errObj (kind : JSProtoKey) (message : String) (name : Option String)
  | gerrObj (e : GError)
deriving DecidableEq

/-- Per-context mutable state: the pending exception slot. -/
structure JSContextState where
  pendingException : Option JSVal
deriving DecidableEq

/-- Observable side effects of the operations, in order of occurrence. -/
inductive Event where
  | enterCompartment
  | exitCompartment
  | beginRequest
  | endRequest
  | debugLog (topic : String) (msg : String)
  | reportError (msg : String)
  | freeMessage (s : String)
  | setPending (v : JSVal)
  | freeGError (e : GError)
  | critical (msg : String)
deriving DecidableEq

/-- Oracle for the external runtime calls made by gjs_throw_valist:
whether gjs_string_from_utf8 succeeds on a given text, whether
JS_GetClassObject succeeds for a given proto key, whether JS_New returns a
non-null object, and whether gjs_object_set_property succeeds. -/
structure ThrowEnv where
  stringFromUtf8 : String → Bool
  getClassObject : JSProtoKey → Bool
  jsNew : Bool
  setProperty : Bool

/-- Trace of the early-return branch of gjs_throw_valist taken when an
exception is already pending: debug log, free the message, end the
request, leave the compartment. -/
def suppressEvents (s : String) : List Event :=
  [Event.enterCompartment, Event.beginRequest,
   Event.debugLog "GJS_DEBUG_CONTEXT" ("Ignoring second exception: " ++ s),
   Event.freeMessage s, Event.endRequest, Event.exitCompartment]

/-- Trace of a construction-failure path of gjs_throw_valist: any
intermediate reports, then the failed-to-throw report at the out label,
then free the message, end the request, leave the compartment. -/
def throwFailEvents (s : String) (extra : List Event) : List Event :=
  [Event.enterCompartment, Event.beginRequest] ++ extra ++
  [Event.reportError ("Failed to throw exception " ++ s),
   Event.freeMessage s, Event.endRequest, Event.exitCompartment]

/-- Trace of the success path of gjs_throw_valist: install the new
exception object, free the message, end the request, leave the
compartment. -/
def throwSuccessEvents (s : String) (v : JSVal) : List Event :=
  [Event.enterCompartment, Event.beginRequest, Event.setPending v,
   Event.freeMessage s, Event.endRequest, Event.exitCompartment]

/-- gjs_throw_valist: render the message, enter the compartment and the
request, return early (without overwriting) if an exception is already
pending, otherwise convert the message to a JS string, resolve the
constructor for the requested proto key, construct the exception object,
optionally set its name property, and install it as the pending
exception; on any construction failure report a failed-to-throw error
instead; on every path free the message and end the request. -/
def gjs_throw_valist (env : ThrowEnv) (st : JSContextState)
    (error_kind : JSProtoKey) (error_name : Option String)
    (fmt : String) (args : List FormatArg) : JSContextState × List Event :=
  let s := g_strdup_vprintf fmt args
  if st.pendingException.isSome then
    (st, suppressEvents s)
  else if env.stringFromUtf8 s = false then
    (st, throwFailEvents s [Event.reportError "Failed to copy exception string"])
  else if env.getClassObject error_kind = false then
    (st, throwFailEvents s [])
  else if env.jsNew = false then
    (st, throwFailEvents s [])
  else
    match error_name with
    | none =>
      ({ st with pendingException := some (JSVal.errObj error_kind s none) },
       throwSuccessEvents s (JSVal.errObj error_kind s none))
    | some nm =>
      if (env.stringFromUtf8 nm && env.setProperty) = false then
        (st, throwFailEvents s [])
      else
        ({ st with pendingException := some (JSVal.errObj error_kind s (some nm)) },
         throwSuccessEvents s (JSVal.errObj error_kind s (some nm)))

/-- gjs_throw: raise a plain Error with a formatted message. -/
def gjs_throw (env : ThrowEnv) (st : JSContextState)
    (fmt : String) (args : List FormatArg) : JSContextState × List Event :=
  gjs_throw_valist env st JSProtoKey.Error none fmt args

/-- gjs_throw_custom: g_return_if_fail rejects any proto key outside the
enumerated set before anything else happens; otherwise delegate to
gjs_throw_valist with the given kind and name. -/
def gjs_throw_custom (env : ThrowEnv) (st : JSContextState)
    (kind : JSProtoKey) (error_name : Option String)
    (fmt : String) (args : List FormatArg) : JSContextState × List Event :=
  if validProtoKey kind = false then
    (st, [Event.critical "gjs_throw_custom: assertion kind in ErrorKind set failed"])
  else
    gjs_throw_valist env st kind error_name fmt args

/-- gjs_throw_literal: delegate to gjs_throw with format %s so the given
string is an argument, never a template. -/
def gjs_throw_literal (env : ThrowEnv) (st : JSContextState)
    (s : String) : JSContextState × List Event :=
  gjs_throw env st "%s" [FormatArg.str s]

/-- One call to any of the three public raise entry points. -/
inductive RaiseCall where
  | mkThrow (fmt : String) (args : List FormatArg)
  | mkThrowCustom (kind : JSProtoKey) (name : Option String)
      (fmt : String) (args : List FormatArg)
  | mkThrowLiteral (s : String)
deriving DecidableEq

/-- Run a raise call through the corresponding entry point. -/
def runRaise (env : ThrowEnv) (c : RaiseCall) (st : JSContextState) :
    JSContextState × List Event :=
  match c with
  | RaiseCall.mkThrow fmt args => gjs_throw env st fmt args
  | RaiseCall.mkThrowCustom kind nm fmt args =>
      gjs_throw_custom env st kind nm fmt args
  | RaiseCall.mkThrowLiteral s => gjs_throw_literal env st s

/-- The formatted message a raise call hands to the engine. -/
def raiseMessage : RaiseCall → String
  | RaiseCall.mkThrow fmt args => g_strdup_vprintf fmt args
  | RaiseCall.mkThrowCustom _ _ fmt args => g_strdup_vprintf fmt args
  | RaiseCall.mkThrowLiteral s => g_strdup_vprintf "%s" [FormatArg.str s]

/-- The proto key a raise call targets. -/
def raiseKind : RaiseCall → JSProtoKey
  | RaiseCall.mkThrow _ _ => JSProtoKey.Error
  | RaiseCall.mkThrowCustom kind _ _ _ => kind
  | RaiseCall.mkThrowLiteral _ => JSProtoKey.Error

/-- The custom name a raise call supplies, if any. -/
def raiseName : RaiseCall → Option String
  | RaiseCall.mkThrowCustom _ nm _ _ => nm
  | _ => none

/-- The exception object a raise call constructs on its success path. -/
def raisedVal (c : RaiseCall) : JSVal :=
  JSVal.errObj (raiseKind c) (raiseMessage c) (raiseName c)

/-- Whether a raise call passes its precondition boundary (always, except
for gjs_throw_custom with a proto key outside the enumerated set). -/
def validCall : RaiseCall → Bool
  | RaiseCall.mkThrowCustom kind _ _ _ => validProtoKey kind
  | _ => true

/-- Whether the environment lets a raise call succeed in constructing and
installing its exception object (given an empty pending slot). -/
def raiseOk (env : ThrowEnv) (c : RaiseCall) : Bool :=
  validCall c && env.stringFromUtf8 (raiseMessage c) &&
  env.getClassObject (raiseKind c) && env.jsNew &&
  (match raiseName c with
   | none => true
   | some nm => env.stringFromUtf8 nm && env.setProperty)

/-- Oracle for the external gjs_error_from_gerror converter (gi/gerror):
the JS error object built from a GError, or none if conversion failed. -/
structure GErrorEnv where
  errorFromGError : GError → Option JSVal

/-- gjs_throw_g_error: return immediately on a null GError; otherwise
begin a request, convert the GError through gjs_error_from_gerror, free
the GError, install the converted value as the pending exception when
conversion produced a non-null object (with no pending-exception check),
and end the request. -/
def gjs_throw_g_error (env : GErrorEnv) (st : JSContextState)
    (error : Option GError) : JSContextState × List Event :=
  match error with
  | none => (st, [])
  | some err =>
    match env.errorFromGError err with
    | some v =>
      ({ st with pendingException := some v },
       [Event.beginRequest, Event.freeGError err, Event.setPending v,
        Event.endRequest])
    | none =>
      (st, [Event.beginRequest, Event.freeGError err, Event.endRequest])

/-- Oracle for the external calls made by gjs_format_stack_trace:
JS.BuildStackString (which may mutate the pending exception state and may
fail), JS_EncodeStringToUTF8 (likewise), and g_filename_from_utf8 (pure,
may fail). -/
structure StackEnv where
  buildStack : JSContextState → JSContextState × Option String
  encodeUTF8 : JSContextState → String → JSContextState × Option String
  filenameFromUtf8 : String → Option String

/-- gjs_format_stack_trace: AutoSaveExceptionState saves the pending
exception state on entry; BuildStackString then, on success,
JS_EncodeStringToUTF8 run (either may disturb the slot and either may
fail); the saved state is restored unconditionally; on any failure the
result is none, otherwise the UTF8 text converted to filename encoding. -/
def gjs_format_stack_trace (env : StackEnv) (st : JSContextState) :
    JSContextState × Option String :=
  let saved := st.pendingException
  let bs := env.buildStack st
  let enc : JSContextState × Option String :=
    match bs.2 with
    | some stackStr => env.encodeUTF8 bs.1 stackStr
    | none => (bs.1, none)
  let restored : JSContextState := { enc.1 with pendingException := saved }
  match enc.2 with
  | none => (restored, none)
  | some u => (restored, env.filenameFromUtf8 u)

/-- JSREPORT_ERROR flag value from the SpiderMonkey API. -/
def JSREPORT_ERROR : Nat := 0

/-- JSREPORT_WARNING flag value from the SpiderMonkey API. -/
def JSREPORT_WARNING : Nat := 1

/-- A JSErrorReport as read by gjs_warning_reporter: severity flags,
numeric error code, filename, line number, message text. -/
structure JSErrorReport where
  flags : Nat
  errorNumber : Nat
  filename : String
  lineno : Nat
  message : String
deriving DecidableEq

/-- GLib log levels used by the reporter. -/
inductive GLogLevel where
  | levelMessage
  | levelWarning
deriving DecidableEq

/-- What gjs_warning_reporter does with a report: terminate the process
with a g_error message, drop the report with no log emission, or emit one
g_log line with a level, a label, and the report fields. -/
inductive ReporterAction where
  | fatal (msg : String)
  | dropped
  | log (level : GLogLevel) (label : String) (filename : String)
      (lineno : Nat) (message : String)
deriving DecidableEq

/-- The g_error message of the out-of-memory escalation, citing the
originating filename and line number. -/
def oomMessage (report : JSErrorReport) : String :=
  "GJS ran out of memory at " ++ report.filename ++ ": " ++
    toString report.lineno ++ "."

/-- gjs_warning_reporter: if GJS_ABORT_ON_OOM is set and the flags equal
JSREPORT_ERROR and the error number is 137 (JSMSG_OUT_OF_MEMORY),
terminate via g_error; else if the warning flag is set, drop error number
162 (JSMSG_UNDEFINED_PROP) entirely and log anything else as WARNING at
message level; else log as REPORTED at warning level. -/
def gjs_warning_reporter (abortOnOOM : Bool) (report : JSErrorReport) :
    ReporterAction :=
  if abortOnOOM && report.flags == JSREPORT_ERROR && report.errorNumber == 137 then
    ReporterAction.fatal (oomMessage report)
  else if report.flags &&& JSREPORT_WARNING != 0 then
    if report.errorNumber == 162 then
      ReporterAction.dropped
    else
      ReporterAction.log GLogLevel.levelMessage "WARNING" report.filename
        report.lineno report.message
  else
    ReporterAction.log GLogLevel.levelWarning "REPORTED" report.filename
      report.lineno report.message

/-- Whether an event frees the formatted message buffer. -/
def isFreeMessageEvent : Event → Bool
  | Event.freeMessage _ => true
  | _ => false

/-- Whether an event ends the scoped request region. -/
def isEndRequestEvent : Event → Bool
  | Event.endRequest => true
  | _ => false

/-- Whether an event frees the GError record. -/
def isFreeGErrorEvent : Event → Bool
  | Event.freeGError _ => true
  | _ => false

/-- Formatting the string through the %s directive copies the argument
verbatim: no character of the argument is treated as a directive. -/
lemma vprintf_percent_s (s : String) :
    g_strdup_vprintf "%s" [FormatArg.str s] = s := by
  have h : g_strdup_vprintf "%s" [FormatArg.str s] = String.mk (s.data ++ []) := rfl
  rw [h, List.append_nil]

/-- When an exception is already pending, every valid raise call leaves
the context untouched and produces exactly the suppression trace. -/
lemma runRaise_pending (env : ThrowEnv) (st : JSContextState) (c : RaiseCall)
    (h : st.pendingException.isSome = true) (hv : validCall c = true) :
    runRaise env c st = (st, suppressEvents (raiseMessage c)) := by
  cases c with
  | mkThrow fmt args =>
    unfold runRaise gjs_throw gjs_throw_valist
    simp [h, raiseMessage]
  | mkThrowCustom kind nm fmt args =>
    unfold runRaise gjs_throw_custom gjs_throw_valist
    simp [validCall] at hv
    simp [hv, h, raiseMessage]
  | mkThrowLiteral s =>
    unfold runRaise gjs_throw_literal gjs_throw gjs_throw_valist
    simp [h, raiseMessage]

/-- When the slot is empty and the environment cooperates, every raise
call installs its exception object and produces the success trace. -/
lemma runRaise_install (env : ThrowEnv) (st : JSContextState) (c : RaiseCall)
    (h : st.pendingException = none) (hok : raiseOk env c = true) :
    runRaise env c st =
      ({ st with pendingException := some (raisedVal c) },
       throwSuccessEvents (raiseMessage c) (raisedVal c)) := by
  cases c with
  | mkThrow fmt args =>
    simp [raiseOk, raiseMessage, raiseKind, raiseName, validCall,
      Bool.and_eq_true] at hok
    obtain ⟨⟨h1, h2⟩, h3⟩ := hok
    unfold runRaise gjs_throw gjs_throw_valist
    simp [h, h1, h2, h3, raisedVal, raiseMessage, raiseKind, raiseName]
  | mkThrowCustom kind nm fmt args =>
    cases nm with
    | none =>
      simp [raiseOk, raiseMessage, raiseKind, raiseName, validCall,
        Bool.and_eq_true] at hok
      obtain ⟨⟨⟨hv, h1⟩, h2⟩, h3⟩ := hok
      unfold runRaise gjs_throw_custom gjs_throw_valist
      simp [h, hv, h1, h2, h3, raisedVal, raiseMessage, raiseKind, raiseName]
    | some nm =>
      simp [raiseOk, raiseMessage, raiseKind, raiseName, validCall,
        Bool.and_eq_true] at hok
      obtain ⟨⟨⟨⟨hv, h1⟩, h2⟩, h3⟩, h4, h5⟩ := hok
      unfold runRaise gjs_throw_custom gjs_throw_valist
      simp [h, hv, h1, h2, h3, h4, h5, raisedVal, raiseMessage, raiseKind,
        raiseName]
  | mkThrowLiteral s =>
    simp [raiseOk, raiseMessage, raiseKind, raiseName, validCall,
      Bool.and_eq_true] at hok
    obtain ⟨⟨h1, h2⟩, h3⟩ := hok
    unfold runRaise gjs_throw_literal gjs_throw gjs_throw_valist
    simp [h, h1, h2, h3, raisedVal, raiseMessage, raiseKind, raiseName]

/-- An environment in which every external runtime call succeeds. -/
def allOkEnv : ThrowEnv :=
  { stringFromUtf8 := fun _ => true
    getClassObject := fun _ => true
    jsNew := true
    setProperty := true }

/-- A context whose pending exception slot is empty. -/
def emptyCtx : JSContextState := { pendingException := none }

/-- A context whose pending exception slot is occupied. -/
def priorCtx : JSContextState :=
  { pendingException := some (JSVal.errObj JSProtoKey.Error "prior" none) }

/-- C1: starting from a context with no pending exception, if the first of
two raise calls (each via throw, throw_custom or throw_literal) succeeds,
it installs its own exception object; the second call leaves the context,
hence the pending exception slot, unchanged, and its whole trace is the
suppression trace, whose only log emission is the low-severity debug
diagnostic carrying the suppressed formatted message. -/
theorem first_exception_wins (env1 env2 : ThrowEnv) (st : JSContextState)
    (c1 c2 : RaiseCall) (h0 : st.pendingException = none)
    (h1 : raiseOk env1 c1 = true) (h2 : validCall c2 = true) :
    (runRaise env1 c1 st).1.pendingException = some (raisedVal c1) ∧
    (runRaise env2 c2 (runRaise env1 c1 st).1).1 = (runRaise env1 c1 st).1 ∧
    (runRaise env2 c2 (runRaise env1 c1 st).1).2 =
      suppressEvents (raiseMessage c2) := by
  have hrun1 := runRaise_install env1 st c1 h0 h1
  have hpend : ((runRaise env1 c1 st).1).pendingException.isSome = true := by
    rw [hrun1]
    rfl
  have hrun2 := runRaise_pending env2 ((runRaise env1 c1 st).1) c2 hpend h2
  refine ⟨?_, ?_, ?_⟩
  · rw [hrun1]
  · rw [hrun2]
  · rw [hrun2]

/-- Witness for C1 at a concrete pair of raise calls. -/
theorem first_exception_wins_witness :
    emptyCtx.pendingException = none ∧
    raiseOk allOkEnv (RaiseCall.mkThrowLiteral "boom") = true ∧
    validCall (RaiseCall.mkThrow "again" []) = true ∧
    ((runRaise allOkEnv (RaiseCall.mkThrowLiteral "boom") emptyCtx).1.pendingException
        = some (raisedVal (RaiseCall.mkThrowLiteral "boom")) ∧
      (runRaise allOkEnv (RaiseCall.mkThrow "again" [])
          (runRaise allOkEnv (RaiseCall.mkThrowLiteral "boom") emptyCtx).1).1 =
        (runRaise allOkEnv (RaiseCall.mkThrowLiteral "boom") emptyCtx).1 ∧
      (runRaise allOkEnv (RaiseCall.mkThrow "again" [])
          (runRaise allOkEnv (RaiseCall.mkThrowLiteral "boom") emptyCtx).1).2 =
        suppressEvents (raiseMessage (RaiseCall.mkThrow "again" []))) :=
  ⟨rfl, rfl, rfl,
   first_exception_wins allOkEnv allOkEnv emptyCtx
     (RaiseCall.mkThrowLiteral "boom") (RaiseCall.mkThrow "again" [])
     rfl rfl rfl⟩

/-- C2: for every non-null GError whose conversion yields an object, the
converter installs that object as the pending exception whatever the
prior state of the slot: there is no precedence check. -/
theorem g_error_overwrites (env : GErrorEnv) (st : JSContextState)
    (err : GError) (v : JSVal) (h : env.errorFromGError err = some v) :
    (gjs_throw_g_error env st (some err)).1.pendingException = some v := by
  unfold gjs_throw_g_error
  simp [h]

/-- A converter environment that always produces an object. -/
def convOkEnv : GErrorEnv := { errorFromGError := fun e => some (JSVal.gerrObj e) }

/-- Witness for C2 on an occupied slot: the converted object replaces the
previously pending exception. -/
theorem g_error_overwrites_witness :
    convOkEnv.errorFromGError { domain := 1, code := 2, message := "io fail" } =
      some (JSVal.gerrObj { domain := 1, code := 2, message := "io fail" }) ∧
    (gjs_throw_g_error convOkEnv priorCtx
        (some { domain := 1, code := 2, message := "io fail" })).1.pendingException =
      some (JSVal.gerrObj { domain := 1, code := 2, message := "io fail" }) :=
  ⟨rfl,
   g_error_overwrites convOkEnv priorCtx
     { domain := 1, code := 2, message := "io fail" }
     (JSVal.gerrObj { domain := 1, code := 2, message := "io fail" }) rfl⟩

/-- When the fatal condition holds, the reporter terminates via g_error
with the out-of-memory message. -/
lemma reporter_fatal_eq (t : Bool) (r : JSErrorReport)
    (h : (t && r.flags == JSREPORT_ERROR && r.errorNumber == 137) = true) :
    gjs_warning_reporter t r = ReporterAction.fatal (oomMessage r) := by
  unfold gjs_warning_reporter
  simp [h]

/-- When the fatal condition fails, the reporter never terminates the
process. -/
lemma reporter_not_fatal (t : Bool) (r : JSErrorReport)
    (h : (t && r.flags == JSREPORT_ERROR && r.errorNumber == 137) = false)
    (m : String) : gjs_warning_reporter t r ≠ ReporterAction.fatal m := by
  unfold gjs_warning_reporter
  rw [h]
  rw [if_neg (by simp : ¬(false = true))]
  split
  · split <;> simp
  · simp

/-- C3: the reporter terminates the process exactly when the toggle is
enabled, the flags equal JSREPORT_ERROR, and the error number is the
out-of-memory code 137; the termination message is the g_error text
citing the originating filename and line number. -/
theorem oom_fatal_iff (t : Bool) (r : JSErrorReport) :
    ((∃ m, gjs_warning_reporter t r = ReporterAction.fatal m) ↔
      (t = true ∧ r.flags = JSREPORT_ERROR ∧ r.errorNumber = 137)) ∧
    (∀ m, gjs_warning_reporter t r = ReporterAction.fatal m →
      m = oomMessage r) := by
  constructor
  · constructor
    · rintro ⟨m, hm⟩
      by_cases hc : (t && r.flags == JSREPORT_ERROR && r.errorNumber == 137) = true
      · simp only [Bool.and_eq_true, beq_iff_eq] at hc
        exact ⟨hc.1.1, hc.1.2, hc.2⟩
      · have hc2 : (t && r.flags == JSREPORT_ERROR && r.errorNumber == 137) = false := by
          simpa using hc
        exact absurd hm (reporter_not_fatal t r hc2 m)
    · rintro ⟨ht, hf, hn⟩
      refine ⟨oomMessage r, reporter_fatal_eq t r ?_⟩
      simp [ht, hf, hn]
  · intro m hm
    by_cases hc : (t && r.flags == JSREPORT_ERROR && r.errorNumber == 137) = true
    · have heq := reporter_fatal_eq t r hc
      rw [heq] at hm
      injection hm with h2
      exact h2.symm
    · have hc2 : (t && r.flags == JSREPORT_ERROR && r.errorNumber == 137) = false := by
        simpa using hc
      exact absurd hm (reporter_not_fatal t r hc2 m)

/-- Witness for C3 at a concrete error-flagged out-of-memory report under
the enabled toggle. -/
theorem oom_fatal_iff_witness :
    ((∃ m, gjs_warning_reporter true
        { flags := 0, errorNumber := 137, filename := "app.js", lineno := 3,
          message := "oom" } = ReporterAction.fatal m) ↔
      (true = true ∧
        (0 : Nat) = JSREPORT_ERROR ∧ (137 : Nat) = 137)) ∧
    (∀ m, gjs_warning_reporter true
        { flags := 0, errorNumber := 137, filename := "app.js", lineno := 3,
          message := "oom" } = ReporterAction.fatal m →
      m = oomMessage
        { flags := 0, errorNumber := 137, filename := "app.js", lineno := 3,
          message := "oom" }) :=
  oom_fatal_iff true
    { flags := 0, errorNumber := 137, filename := "app.js", lineno := 3,
      message := "oom" }

/-- C4: the stack trace formatter restores the pending exception slot to
exactly the state it found, whatever the external calls do to it and
whether they succeed or fail; a failed stack-string build surfaces only
as an absent result, never as an exception. -/
theorem stack_trace_preserves_pending (env : StackEnv) (st : JSContextState) :
    (gjs_format_stack_trace env st).1.pendingException = st.pendingException ∧
    ((env.buildStack st).2 = none →
      (gjs_format_stack_trace env st).2 = none) := by
  constructor
  · unfold gjs_format_stack_trace
    dsimp only
    split <;> rfl
  · intro hb
    unfold gjs_format_stack_trace
    simp [hb]

/-- A stack environment whose build step fails while clobbering the
pending exception slot. -/
def stackFailEnv : StackEnv :=
  { buildStack := fun _ =>
      ({ pendingException := some (JSVal.errObj JSProtoKey.Error "transient" none) },
       none)
    encodeUTF8 := fun s str => (s, some str)
    filenameFromUtf8 := fun u => some u }

/-- Witness for C4: a failing build leaves the empty slot empty and
returns an absent result. -/
theorem stack_trace_preserves_pending_witness :
    (gjs_format_stack_trace stackFailEnv emptyCtx).1.pendingException =
      emptyCtx.pendingException ∧
    (gjs_format_stack_trace stackFailEnv emptyCtx).2 = none :=
  ⟨(stack_trace_preserves_pending stackFailEnv emptyCtx).1,
   (stack_trace_preserves_pending stackFailEnv emptyCtx).2 rfl⟩

/-- C5: a non-null GError is freed exactly once by gjs_throw_g_error on
every path, whatever the conversion outcome and whatever was pending; a
null GError makes the call a no-op that emits no event at all. -/
theorem g_error_freed_once (env : GErrorEnv) (st : JSContextState)
    (err : GError) :
    ((gjs_throw_g_error env st (some err)).2.filter isFreeGErrorEvent).length
      = 1 ∧
    gjs_throw_g_error env st none = (st, []) := by
  refine ⟨?_, rfl⟩
  unfold gjs_throw_g_error
  cases h : env.errorFromGError err <;>
    simp [h, isFreeGErrorEvent, List.filter]

/-- C6: a warning-flagged report with the benign undefined-property code
162 is dropped with no log emission, whatever the toggle. -/
theorem benign_warning_dropped (t : Bool) (r : JSErrorReport)
    (h1 : r.flags &&& JSREPORT_WARNING ≠ 0) (h2 : r.errorNumber = 162) :
    gjs_warning_reporter t r = ReporterAction.dropped := by
  have hw : (r.flags &&& JSREPORT_WARNING != 0) = true := bne_iff_ne.mpr h1
  unfold gjs_warning_reporter
  simp [h2, hw]

/-- Witness for C6 at a concrete warning-flagged report. -/
theorem benign_warning_dropped_witness :
    ((1 : Nat) &&& JSREPORT_WARNING ≠ 0) ∧ ((162 : Nat) = 162) ∧
    gjs_warning_reporter true
      { flags := 1, errorNumber := 162, filename := "lazy.js", lineno := 7,
        message := "undefined prop" } = ReporterAction.dropped :=
  ⟨by decide, rfl,
   benign_warning_dropped true
     { flags := 1, errorNumber := 162, filename := "lazy.js", lineno := 7,
       message := "undefined prop" } (by decide) rfl⟩

/-- C7: throw_literal installs an Error whose message is exactly the
given string, format-significant characters preserved verbatim. -/
theorem throw_literal_verbatim (env : ThrowEnv) (st : JSContextState)
    (s : String) (h0 : st.pendingException = none)
    (h1 : raiseOk env (RaiseCall.mkThrowLiteral s) = true) :
    (gjs_throw_literal env st s).1.pendingException =
      some (JSVal.errObj JSProtoKey.Error s none) := by
  have hrun := runRaise_install env st (RaiseCall.mkThrowLiteral s) h0 h1
  have hre : runRaise env (RaiseCall.mkThrowLiteral s) st =
      gjs_throw_literal env st s := rfl
  rw [hre] at hrun
  rw [hrun]
  simp [raisedVal, raiseKind, raiseMessage, raiseName, vprintf_percent_s]

/-- Witness for C7 at the percent-bearing literal from the spec. -/
theorem throw_literal_verbatim_witness :
    emptyCtx.pendingException = none ∧
    raiseOk allOkEnv (RaiseCall.mkThrowLiteral "100% done") = true ∧
    (gjs_throw_literal allOkEnv emptyCtx "100% done").1.pendingException =
      some (JSVal.errObj JSProtoKey.Error "100% done" none) :=
  ⟨rfl, rfl, throw_literal_verbatim allOkEnv emptyCtx "100% done" rfl rfl⟩

/-- C8: on every path of the throw engine after the message is rendered
(the pending early return, each construction failure, and the success
path) the trace frees the formatted message exactly once and ends the
scoped request region exactly once. -/
theorem message_and_request_released_once (env : ThrowEnv)
    (st : JSContextState) (kind : JSProtoKey) (name : Option String)
    (fmt : String) (args : List FormatArg) :
    ((gjs_throw_valist env st kind name fmt args).2.filter
        isFreeMessageEvent).length = 1 ∧
    ((gjs_throw_valist env st kind name fmt args).2.filter
        isEndRequestEvent).length = 1 := by
  unfold gjs_throw_valist
  dsimp only
  repeat' split
  all_goals exact ⟨rfl, rfl⟩

/-- C9: gjs_throw_custom with a proto key outside the enumerated set is
rejected by the g_return_if_fail precondition: the context is untouched
and the only event is the contract-failure diagnostic, so no allocation,
no request, no compartment entry and no install ever happens. -/
theorem invalid_kind_rejected (env : ThrowEnv) (st : JSContextState)
    (kind : JSProtoKey) (name : Option String) (fmt : String)
    (args : List FormatArg) (h : validProtoKey kind = false) :
    gjs_throw_custom env st kind name fmt args =
      (st, [Event.critical
        "gjs_throw_custom: assertion kind in ErrorKind set failed"]) := by
  unfold gjs_throw_custom
  simp [h]

/-- Witness for C9 at the proto key for Object, which is outside the
enumerated error set. -/
theorem invalid_kind_rejected_witness :
    validProtoKey (JSProtoKey.other 0) = false ∧
    gjs_throw_custom allOkEnv emptyCtx (JSProtoKey.other 0) none "x" [] =
      (emptyCtx, [Event.critical
        "gjs_throw_custom: assertion kind in ErrorKind set failed"]) :=
  ⟨rfl, invalid_kind_rejected allOkEnv emptyCtx (JSProtoKey.other 0) none
    "x" [] rfl⟩

/-- C10: a report carrying the out-of-memory code 137 whose flags include
the warning flag (hence differ from JSREPORT_ERROR) is never fatal, even
under the enabled toggle: it takes the normal warning classification. -/
theorem warning_flagged_oom_not_fatal (t : Bool) (r : JSErrorReport)
    (h1 : r.flags &&& JSREPORT_WARNING ≠ 0) (h2 : r.errorNumber = 137) :
    gjs_warning_reporter t r =
      ReporterAction.log GLogLevel.levelMessage "WARNING" r.filename
        r.lineno r.message := by
  have hflags : r.flags ≠ JSREPORT_ERROR := by
    intro hf
    apply h1
    rw [hf]
    rfl
  have hw : (r.flags &&& JSREPORT_WARNING != 0) = true := bne_iff_ne.mpr h1
  have hfatal : (r.flags == JSREPORT_ERROR) = false :=
    beq_eq_false_iff_ne.mpr hflags
  unfold gjs_warning_reporter
  simp [hfatal, hw, h2]

/-- Witness for C10 at a warning-flagged out-of-memory report under the
enabled toggle. -/
theorem warning_flagged_oom_not_fatal_witness :
    ((1 : Nat) &&& JSREPORT_WARNING ≠ 0) ∧ ((137 : Nat) = 137) ∧
    gjs_warning_reporter true
      { flags := 1, errorNumber := 137, filename := "oom.js", lineno := 9,
        message := "low memory" } =
      ReporterAction.log GLogLevel.levelMessage "WARNING" "oom.js" 9
        "low memory" :=
  ⟨by decide, rfl,
   warning_flagged_oom_not_fatal true
     { flags := 1, errorNumber := 137, filename := "oom.js", lineno := 9,
       message := "low memory" } (by decide) rfl⟩
